import Mathlib

/-!
Formal model of the 120KW CDU controller core.

Shallow embedding of the Python sources of the repository:
  * `cdu120kw/control_logic/device_data_manipulation.py`  (namespace `DDM`)
  * `cdu120kw/control_logic/pid_helper.py`                (namespace `PidHelper`)
  * `cdu120kw/task/task_queue.py`                         (namespace `TaskQueue`)
  * `cdu120kw/task/component_operation_task.py`           (namespace `COT`)
  * `cdu120kw/modbus_manager/batch_writer.py`
    and `batch_reader.py`                                 (namespace `BatchIO`)

Modelling conventions:
  * Python `int` is `Int`; Python `& 0xFFFF` on an `int` is `Int.emod` by
    65536 (Python `&` of a negative int with `0xFFFF` equals the value
    modulo 2^16, and Lean's `%` on `Int` is `emod`, which is non-negative
    for a positive modulus).
  * Python `float` arithmetic is modelled exactly over `ℚ`; the built-in
    `round` (banker's rounding, ties to even) is `pyRound` below.
  * Python dicts with insertion-order iteration are association lists.
  * Stateful methods become functions from the explicit state to a pair of
    result and new state; externally visible side effects (Modbus writes,
    timer scheduling, callback invocations) are returned as data.
-/

/-- Python `round` on an exact rational: round half to even, as `int(round(x))`. -/
def pyRound (q : ℚ) : Int :=
  let f := ⌊q⌋
  let r := q - (f : ℚ)
  if r < 1/2 then f
  else if 1/2 < r then f + 1
  else if f % 2 = 0 then f else f + 1

namespace DDM

/-- `device_data_manipulation.to_u16`:
`(val + 0x10000) & 0xFFFF if val < 0 else val`.
Negative values are reduced mod 2^16; non-negative values are returned
unchanged (no masking). -/
def to_u16 (val : Int) : Int :=
  if val < 0 then (val + 65536) % 65536 else val

/-- Register address constants from `device_data_manipulation.py` (decimal). -/
def COIL_WRITE_ENABLE : Int := 0
def COIL_FAN_SWITCH_WRITE_START : Int := 33
def COIL_FAN_SWITCH_WRITE_END : Int := 64
def FAN_BATCH_SWITCH_COIL : Int := 128
def COIL_PUMP_SWITCH_READ_START : Int := 65
def COIL_PUMP_SWITCH_WRITE_START : Int := 97
def COIL_PUMP_SWITCH_WRITE_END : Int := 128
def PUMP_BATCH_SWITCH_COIL : Int := 129
def COIL_IO_OUTPUT_WRITE_START : Int := 266
def COIL_IO_OUTPUT_WRITE_END : Int := 298
def IO_OUTPUT_BATCH_SWITCH_COIL : Int := 298
def CONTROL_MODE_TARGET_FLOW_REGISTER : Int := 395
def CONTROL_MODE_TARGET_TEMP_REGISTER : Int := 396
def CONTROL_MODE_TARGET_PRESSUREDIFF_REGISTER : Int := 397
def CONTROL_MODE : Int := 399
def FAN_DUTY_WRITE_START : Int := 432
def FAN_DUTY_WRITE_END : Int := 464
def FAN_BATCH_DUTY_REGISTER : Int := 560
def PUMP_DUTY_READ_START : Int := 600
def PUMP_DUTY_WRITE_START : Int := 632
def PUMP_DUTY_WRITE_END : Int := 664
def PUMP_CURRENT_START : Int := 664
def PUMP_SPEED_START : Int := 696
def PUMP_STATUS_START : Int := 728
def PUMP_VOLTAGE_START : Int := 760
def PUMP_TEMPERATURE_START : Int := 764
def PUMP_BATCH_DUTY_REGISTER : Int := 799
def PV_DUTY_WRITE_START : Int := 808
def PV_DUTY_WRITE_END : Int := 816
def PV_BATCH_DUTY_REGISTER : Int := 832
def TEMP_VALUE_START : Int := 900
def PRESS_VALUE_START : Int := 1000
def FLOW_VALUE_START : Int := 1100
def COOLING_CAPACITY_START : Int := 1116

/-- `ProcessedRegisterMap` state: the coil store (preallocated addresses
0..378), the holding-register store (preallocated addresses 0..65535) and
the lengths of the two registered callback lists.  The stores are total
functions; the domain bounds of the Python dicts are enforced in
`set_coil` / `set_register` / the getters. -/
structure PMap where
  coils : Int → Int
  registers : Int → Int
  numCoilCallbacks : Nat
  numRegisterCallbacks : Nat

/-- `_define_write_ranges`: coil write ranges (half-open `[start, end)`). -/
def coil_write_ranges : List (Int × Int) :=
  [(COIL_FAN_SWITCH_WRITE_START, COIL_FAN_SWITCH_WRITE_END),
   (COIL_PUMP_SWITCH_WRITE_START, COIL_PUMP_SWITCH_WRITE_END),
   (COIL_IO_OUTPUT_WRITE_START, COIL_IO_OUTPUT_WRITE_END),
   (FAN_BATCH_SWITCH_COIL, FAN_BATCH_SWITCH_COIL + 1),
   (PUMP_BATCH_SWITCH_COIL, PUMP_BATCH_SWITCH_COIL + 1),
   (IO_OUTPUT_BATCH_SWITCH_COIL, IO_OUTPUT_BATCH_SWITCH_COIL + 1),
   (COIL_WRITE_ENABLE, COIL_WRITE_ENABLE + 1)]

/-- `_define_write_ranges`: holding-register write ranges. -/
def register_write_ranges : List (Int × Int) :=
  [(CONTROL_MODE, CONTROL_MODE + 1),
   (CONTROL_MODE_TARGET_FLOW_REGISTER, CONTROL_MODE_TARGET_FLOW_REGISTER + 1),
   (CONTROL_MODE_TARGET_TEMP_REGISTER, CONTROL_MODE_TARGET_TEMP_REGISTER + 1),
   (CONTROL_MODE_TARGET_PRESSUREDIFF_REGISTER, CONTROL_MODE_TARGET_PRESSUREDIFF_REGISTER + 1),
   (FAN_DUTY_WRITE_START, FAN_DUTY_WRITE_END),
   (PUMP_DUTY_WRITE_START, PUMP_DUTY_WRITE_END),
   (PV_DUTY_WRITE_START, PV_DUTY_WRITE_END),
   (FAN_BATCH_DUTY_REGISTER, FAN_BATCH_DUTY_REGISTER + 1),
   (PUMP_BATCH_DUTY_REGISTER, PUMP_BATCH_DUTY_REGISTER + 1),
   (PV_BATCH_DUTY_REGISTER, PV_BATCH_DUTY_REGISTER + 1)]

/-- `ProcessedRegisterMap._in_ranges`. -/
def in_ranges (address : Int) (ranges : List (Int × Int)) : Bool :=
  ranges.any fun r => decide (r.1 ≤ address) && decide (address < r.2)

/-- `ProcessedRegisterMap.set_coil`.  Returns the updated map and whether
the registered coil callbacks were invoked (when `true`, every callback in
the list is called once with `(address, stored value)`).  Mirrors the
source: addresses outside the preallocated 0..378 dict are ignored; the
stored value is normalised to 0/1; callbacks fire iff `trigger_callback`
is set, the callback list is non-empty, and the address is in a declared
coil write range or `force` is set. -/
def set_coil (m : PMap) (address value : Int) (force trigger_callback : Bool) :
    PMap × Bool :=
  if address < 0 ∨ 379 ≤ address then (m, false)
  else if trigger_callback = false ∨ m.numCoilCallbacks = 0 ∨
      (force = false ∧ in_ranges address coil_write_ranges = false) then
    ({ m with coils := fun a =>
        if a = address then (if value ≠ 0 then 1 else 0) else m.coils a }, false)
  else
    ({ m with coils := fun a =>
        if a = address then (if value ≠ 0 then 1 else 0) else m.coils a }, true)

/-- `ProcessedRegisterMap.set_register`.  Same shape as `set_coil` but
with no `force` parameter, register domain 0..65535, the raw integer
stored unnormalised, and the register write ranges. -/
def set_register (m : PMap) (address value : Int) (trigger_callback : Bool) :
    PMap × Bool :=
  if address < 0 ∨ 65536 ≤ address then (m, false)
  else if trigger_callback = false ∨ m.numRegisterCallbacks = 0 ∨
      in_ranges address register_write_ranges = false then
    ({ m with registers := fun a =>
        if a = address then value else m.registers a }, false)
  else
    ({ m with registers := fun a =>
        if a = address then value else m.registers a }, true)

/-- `ProcessedRegisterMap.get_register`: `self.registers.get(address, 0)`. -/
def get_register (m : PMap) (address : Int) : Int :=
  if address < 0 ∨ 65536 ≤ address then 0 else m.registers address

/-- `ProcessedRegisterMap.get_coil`: `self.coils.get(address, 0)`. -/
def get_coil (m : PMap) (address : Int) : Int :=
  if address < 0 ∨ 379 ≤ address then 0 else m.coils address

/-- `get_cooling_capacity` (reading and writing the processed map).
Float arithmetic is modelled over `ℚ`.  Returns the updated map and the
function's return value.  The source computes `scaled = round(cap*1000)`,
forces it to ±1 when it rounds to zero, and then unconditionally
overwrites it with `round(cap*10)` before encoding; the dead computation
is kept here. -/
def get_cooling_capacity (m : PMap) : PMap × Int :=
  let density : ℚ := 10163 / 10000
  let specific_heat_capacity : ℚ := 4182 / 1000
  let f2_raw_scaled := get_register m (FLOW_VALUE_START + 1)
  let f2_signed := if 32768 ≤ f2_raw_scaled then f2_raw_scaled - 65536 else f2_raw_scaled
  let f2_val : ℚ := (f2_signed : ℚ) / 10
  let t3_int := get_register m (TEMP_VALUE_START + 2)
  let t4_int := get_register m (TEMP_VALUE_START + 3)
  let t3 : ℚ := (t3_int : ℚ) / 10
  let t4 : ℚ := (t4_int : ℚ) / 10
  let delta_t := t3 - t4
  if |delta_t| < 1 / 1000000000000 then
    (m, get_register m (COOLING_CAPACITY_START + 0))
  else
    let cap_val := f2_val * delta_t * density * specific_heat_capacity / 60
    let scaled := pyRound (cap_val * 1000)
    let scaled := if scaled = 0 then (if 0 < cap_val then 1 else -1) else scaled
    let scaled := pyRound (cap_val * 10)
    let u16_scaled := to_u16 scaled
    ((set_register m (COOLING_CAPACITY_START + 0) u16_scaled true).1, u16_scaled)

end DDM

namespace PidHelper

/-- `PidHelper` instance state (`pid_helper.py`): gains, run-state
variables, output clamp bounds and sampling period, all Python floats
modelled over `ℚ`. -/
structure State where
  kp : ℚ
  ki : ℚ
  kd : ℚ
  previous_error : ℚ
  integral : ℚ
  previous_measured_value : ℚ
  output_min : ℚ
  output_max : ℚ
  dt : ℚ
deriving DecidableEq, Repr

/-- `PidHelper.calculate(target_value, measured_value, last_set_var, is_add)`:
one PID step.  Returns the clamped output and the post-call state. -/
def calculate (st : State) (target_value measured_value last_set_var : ℚ)
    (is_add : Bool) : ℚ × State :=
  let error := if is_add then target_value - measured_value
               else measured_value - target_value
  let proportional := st.kp * error
  let integral := st.integral + error * st.dt
  let integral_term := st.ki * integral
  let derivative := (error - st.previous_error) / st.dt
  let derivative_term := st.kd * derivative
  let output := proportional + integral_term + derivative_term + last_set_var
  let output := max st.output_min (min st.output_max output)
  (output, { st with integral := integral, previous_error := error })

/-- `PidHelper.reset`: clears `previous_error` and `integral` only. -/
def reset (st : State) : State :=
  { st with previous_error := 0, integral := 0 }

/-- `PidHelper.set_pid_var(kp, ki, kd)` (the call with empty `*args`).
The source guards each assignment with an inequality test, and the
guards for `ki` and `kd` compare the current value against the `kp`
argument:
`if self.kp != kp: self.kp = kp`,
`if self.ki != kp: self.ki = ki`,
`if self.kd != kp: self.kd = kd`. -/
def set_pid_var (st : State) (kp ki kd : ℚ) : State :=
  let st := if st.kp ≠ kp then { st with kp := kp } else st
  let st := if st.ki ≠ kp then { st with ki := ki } else st
  let st := if st.kd ≠ kp then { st with kd := kd } else st
  st

end PidHelper

namespace TaskQueue

/-- `TaskItem` ordering data (`task_queue.py`): the priority passed to
`put_task` and the creation wall-clock `time.time()` timestamp.  `seq` is
the enqueue sequence number (ghost data: the Python object does not store
it); it does not participate in the ordering. -/
structure TaskItem where
  priority : Int
  timestamp : ℚ
  seq : Nat
deriving DecidableEq, Repr

/-- `TaskItem.__lt__`: Python tuple comparison
`(self.priority, self.timestamp) < (other.priority, other.timestamp)`,
i.e. lexicographic. -/
def task_lt (a b : TaskItem) : Bool :=
  if a.priority < b.priority then true
  else if a.priority = b.priority then decide (a.timestamp < b.timestamp)
  else false

/-- The contract of `queue.PriorityQueue.get` over the items currently in
the queue: the dequeued item is one of the stored items and no stored
item compares strictly below it under `TaskItem.__lt__`.  Among mutually
incomparable items (equal `(priority, timestamp)` keys) the heap makes an
unspecified choice, so any minimal item is admissible. -/
def canDequeueFirst (q : List TaskItem) (x : TaskItem) : Prop :=
  x ∈ q ∧ ∀ y ∈ q, task_lt y x = false

instance (q : List TaskItem) (x : TaskItem) : Decidable (canDequeueFirst q x) := by
  unfold canDequeueFirst
  infer_instance

end TaskQueue

namespace BatchIO

/-- Outcome of one underlying `pymodbus` client call inside the retry
loop of `ModbusBatchWriter` / `ModbusBatchReader`: the call returned a
normal response, returned a response with `isError()` true, or raised an
exception with the given message. -/
inductive Attempt where
  | ok
  | protocolError
  | exnRaised (msg : String)
deriving DecidableEq, Repr

/-- The retry loop of `ModbusBatchWriter.write_registers` /
`write_coils`: iterate `max_retry` times over the successive call
outcomes; `isError()` responses `continue` without recording anything,
exceptions overwrite `last_error`, a normal response returns `None`
immediately; after the loop the recorded `last_error` is returned. -/
def writeAttemptLoop (attempts : Nat → Attempt) : Nat → Nat → Option String → Option String
  | 0, _, last_error => last_error
  | fuel + 1, i, last_error =>
    match attempts i with
    | .ok => none
    | .protocolError => writeAttemptLoop attempts fuel (i + 1) last_error
    | .exnRaised msg => writeAttemptLoop attempts fuel (i + 1) (some msg)

/-- `ModbusBatchWriter.write_registers` (and identically `write_coils`):
`client_ok` is whether `client_manager.get_client()` returned a client;
`attempts i` is the outcome of the `i`-th underlying write call;
`max_retry` defaults to 3.  Returns the error string surfaced to the
caller, `none` meaning no error was reported. -/
def write_registers (client_ok : Bool) (attempts : Nat → Attempt)
    (max_retry : Nat) : Option String :=
  if !client_ok then some "ConnectionError"
  else writeAttemptLoop attempts max_retry 0 none

/-- Outcome of one underlying read call: data, a response with
`isError()` true, or an exception. -/
inductive ReadAttempt where
  | ok (data : List Int)
  | protocolError
  | exnRaised (msg : String)
deriving DecidableEq, Repr

/-- The retry loop of `ModbusBatchReader.read_holding_registers` /
`read_coils`: same shape as the writer loop but a success returns the
data. -/
def readAttemptLoop (attempts : Nat → ReadAttempt) :
    Nat → Nat → Option String → Option (List Int) × Option String
  | 0, _, last_error => (none, last_error)
  | fuel + 1, i, last_error =>
    match attempts i with
    | .ok data => (some data, none)
    | .protocolError => readAttemptLoop attempts fuel (i + 1) last_error
    | .exnRaised msg => readAttemptLoop attempts fuel (i + 1) (some msg)

/-- `ModbusBatchReader.read_holding_registers` (and identically
`read_coils`): returns the `(data, error)` pair surfaced to the caller. -/
def read_holding_registers (client_ok : Bool) (attempts : Nat → ReadAttempt)
    (max_retry : Nat) : Option (List Int) × Option String :=
  if !client_ok then (none, some "ConnectionError")
  else readAttemptLoop attempts max_retry 0 none

end BatchIO

namespace COT

/-- `component_operation_task.to_u16`: `int(value) & 0xFFFF`, i.e. the
value modulo 2^16 for every integer input. -/
def to_u16 (value : Int) : Int :=
  value % 65536

/-- Hosted-communication mode (`self.current_mode ∈ {"tcp", "rtu", "none"}`). -/
inductive Mode where
  | tcp
  | rtu
  | offline
deriving DecidableEq, Repr

/-- The write kind of a precomputed writable field ("coil" / "register"). -/
inductive WriteKind where
  | coil
  | register
deriving DecidableEq, Repr

/-- One entry of `ComponentTaskParam.writable_fields`:
`(write_type, address, decimals, (min, max))`. -/
structure FieldMeta where
  kind : WriteKind
  address : Int
  decimals : Int
  minV : Option Int
  maxV : Option Int
deriving DecidableEq, Repr

/-- `ComponentTaskParam`: name, enabled flag, the precomputed writable
fields in configured order, and the `rw_d_duty_decimals` config value
used as fallback when the precomputed decimals are 0. -/
structure CompParam where
  name : String
  enabled : Bool
  writable_fields : List (String × FieldMeta)
  rw_d_duty_decimals : Int
deriving DecidableEq, Repr

/-- Association-list lookup (Python `dict.get`). -/
def alookup {α : Type} [DecidableEq α] {β : Type} : List (α × β) → α → Option β
  | [], _ => none
  | (k, v) :: rest, key => if k = key then some v else alookup rest key

/-- Association-list store (Python `dict[key] = value`). -/
def aupdate {α : Type} [DecidableEq α] {β : Type} : List (α × β) → α → β → List (α × β)
  | [], key, value => [(key, value)]
  | (k, v) :: rest, key, value =>
    if k = key then (k, value) :: rest else (k, v) :: aupdate rest key value

/-- `ComponentOperationTaskManager` state relevant to `operate_component`:
current mode, the accept-new-task flag, the parameter manager (maybe not
initialised) and the de-duplication table `last_write_values` keyed by
`(write_type, address)`. -/
structure MgrState where
  current_mode : Mode
  accept_new_task : Bool
  param_mgr : Option (List CompParam)
  last_write_values : List ((WriteKind × Int) × Int)

/-- `update_mode`: prefer TCP, else RTU, else none; the accept flag
follows connectivity.  `tcp_ok` / `rtu_ok` are the managers' connectivity
at the call (`is_connected()`). -/
def update_mode (st : MgrState) (tcp_ok rtu_ok : Bool) : MgrState :=
  if tcp_ok then { st with current_mode := .tcp, accept_new_task := true }
  else if rtu_ok then { st with current_mode := .rtu, accept_new_task := true }
  else { st with current_mode := .offline, accept_new_task := false }

/-- `_pick_first_writable`: first entry of `value_dict` (insertion order)
whose field name is in the precomputed writable-field table. -/
def pick_first_writable (param : CompParam) (value_dict : List (String × Int)) :
    Option (String × FieldMeta × Int) :=
  value_dict.findSome? fun fv =>
    (alookup param.writable_fields fv.1).map fun meta => (fv.1, meta, fv.2)

/-- Whether `needle` occurs at the head of `hay`. -/
def startsWithSeq : List Char → List Char → Bool
  | [], _ => true
  | _ :: _, [] => false
  | a :: as, b :: bs => a == b && startsWithSeq as bs

/-- Whether `needle` occurs contiguously anywhere in `hay`. -/
def containsSeq (needle : List Char) : List Char → Bool
  | [] => startsWithSeq needle []
  | c :: rest => startsWithSeq needle (c :: rest) || containsSeq needle rest

/-- Python `"rw_d_duty" in field` (substring test). -/
def hasDutySubstring (field : String) : Bool :=
  containsSeq "rw_d_duty".toList field.toList

/-- The value-resolution pipeline of `operate_component` after the
writable field is picked: duty-decimals fallback, scale, clamping to
`[min*scale, max*scale]`, and normalisation to the written value (0/1
for coils, U16 two's-complement for registers).  Returns
`(write_type, address, write_value)`. -/
def resolve_write (param : CompParam) (value_dict : List (String × Int)) :
    Option (WriteKind × Int × Int) :=
  match pick_first_writable param value_dict with
  | none => none
  | some (field, meta, value) =>
    let ivalue := value
    let duty_decimals := meta.decimals
    let is_duty : Bool := meta.kind == WriteKind.register && hasDutySubstring field
    let duty_decimals :=
      if is_duty = true ∧ duty_decimals = 0 then param.rw_d_duty_decimals else duty_decimals
    let scale : Int := if is_duty = true ∧ 0 < duty_decimals then 10 ^ duty_decimals.toNat else 1
    let ivalue := match meta.minV with
      | some mn => max ivalue (mn * scale)
      | none => ivalue
    let ivalue := match meta.maxV with
      | some mx => min ivalue (mx * scale)
      | none => ivalue
    let write_value := match meta.kind with
      | .coil => if ivalue ≠ 0 then 1 else 0
      | .register => to_u16 ivalue
    some (meta.kind, meta.address, write_value)

/-- Result of `operate_component`, mirroring the returned strings and,
for a submitted task, the job handed to `task_queue.put_task`
(`execute_write` arguments). -/
inductive OperateResult where
  | commOffline
  | paramMgrMissing
  | notFoundOrDisabled
  | noWritableAddress
  | skipUnchanged
  | submitted (kind : WriteKind) (address : Int) (value : Int) (slave : Int) (priority : Int)
deriving DecidableEq, Repr

/-- `ComponentOperationTaskManager.operate_component(name, value_dict,
slave, priority)`:
refresh mode, reject when offline / manager missing / component missing
or disabled / no writable field; otherwise resolve the write value and
de-duplicate on the key `(write_type, address)` against
`last_write_values` — equal value returns the skip rejection without
enqueueing, otherwise the table is updated and a write job is enqueued. -/
def operate_component (st : MgrState) (tcp_ok rtu_ok : Bool) (name : String)
    (value_dict : List (String × Int)) (slave priority : Int) :
    OperateResult × MgrState :=
  let st := update_mode st tcp_ok rtu_ok
  if st.accept_new_task = false then (.commOffline, st)
  else
    match st.param_mgr with
    | none => (.paramMgrMissing, st)
    | some params =>
      match params.find? (fun p => p.name == name) with
      | none => (.notFoundOrDisabled, st)
      | some param =>
        if param.enabled = false then (.notFoundOrDisabled, st)
        else
          match resolve_write param value_dict with
          | none => (.noWritableAddress, st)
          | some (kind, address, write_value) =>
            if alookup st.last_write_values (kind, address) = some write_value then
              (.skipUnchanged, st)
            else
              (.submitted kind address write_value slave priority,
               { st with last_write_values :=
                   aupdate st.last_write_values (kind, address) write_value })

end COT

namespace DDM

/-- Static configuration counts used by `apply_write_enable_effect`
(lengths of the `fans`, `pumps`, `proportional_valve` config arrays). -/
structure WEConfig where
  numFans : Nat
  numPumps : Nat
  numPvs : Nat
deriving DecidableEq, Repr

/-- Handler state of `apply_write_enable_effect`: the memoised previous
`enable` argument (`apply_write_enable_effect.last`, absent before the
first call) and whether a fan-shutdown one-shot timer is pending
(`_fan_shutdown_timer` is set and neither cancelled nor fired). -/
structure WEState where
  last : Option Int
  timerPending : Bool
deriving DecidableEq, Repr

/-- Externally visible action requested by the write-enable handler:
each constructor denotes the named call issued by the source
(`stop_auto_control`, `write_pump_duty(i, duty, force=True)`,
`write_fan_switch(i, v, force=True)`, `batch_write_pv_duty(duty,
force=True)`, cancelling the pending `threading.Timer`, and starting a
new `threading.Timer(delaySeconds, delayed_shutdown)`). -/
inductive WEAction where
  | stopAutoControl
  | pumpDuty (idx : Nat) (duty : Int) (force : Bool)
  | fanSwitch (idx : Nat) (value : Int) (force : Bool)
  | batchPvDuty (duty : Int) (force : Bool)
  | cancelFanTimer
  | scheduleFanTimer (delaySeconds : ℚ)
deriving DecidableEq, Repr

/-- `apply_write_enable_effect(enable)`.  Returns the new handler state
and the list of requested actions in source order.  A repeat of the
previous `enable` value is a no-op.  `enable == 1`: cancel any pending
fan-shutdown timer, force all fans on, force PV batch duty to 10000 once
per configured valve.  Any other value: stop the auto-control thread,
force every pump duty to 0, and replace the pending fan-shutdown timer
(cancelling one if present) with a fresh 15-second one-shot. -/
def apply_write_enable_effect (cfg : WEConfig) (st : WEState) (enable : Int) :
    WEState × List WEAction :=
  if st.last = some enable then (st, [])
  else if enable = 1 then
    let cancelActs := if st.timerPending then [WEAction.cancelFanTimer] else []
    let fanActs := (List.range cfg.numFans).map fun i => WEAction.fanSwitch i 1 true
    let pvActs := (List.range cfg.numPvs).map fun _ => WEAction.batchPvDuty 10000 true
    ({ last := some enable, timerPending := false },
     cancelActs ++ fanActs ++ pvActs)
  else
    let stopActs := [WEAction.stopAutoControl]
    let pumpActs := (List.range cfg.numPumps).map fun i => WEAction.pumpDuty i 0 true
    let cancelActs := if st.timerPending then [WEAction.cancelFanTimer] else []
    ({ last := some enable, timerPending := true },
     stopActs ++ pumpActs ++ cancelActs ++ [WEAction.scheduleFanTimer 15])

/-- Firing of the pending fan-shutdown one-shot (`delayed_shutdown`):
only a still-pending (never cancelled nor replaced-away) timer runs, and
it forces every configured fan off. -/
def fire_fan_shutdown_timer (cfg : WEConfig) (st : WEState) : WEState × List WEAction :=
  if st.timerPending then
    ({ st with timerPending := false },
     (List.range cfg.numFans).map fun i => WEAction.fanSwitch i 0 true)
  else (st, [])

/-- What `hmi_write_trigger(address, value)` does with a dispatched
write: each `dispatch*` constructor denotes the named component-write
call issued by the source (`write_fan_switch`, `write_pump_duty`,
`write_pv_duty`, `write_io_output`, `batch_write_pump_duty`,
`batch_write_pv_duty`, `batch_write_io_outputs`), all of which submit
component write operations; the remaining constructors issue none. -/
inductive HmiResult where
  | applyWriteEnable (value : Int)
  | rejectedWriteDisabled
  | rejectedAutoModePump
  | dispatchFanSwitch (idx value : Int)
  | dispatchPumpDuty (idx value : Int)
  | dispatchPvDuty (idx value : Int)
  | dispatchIoOutput (idx value : Int)
  | dispatchBatchPumpDuty (value : Int)
  | dispatchBatchPvDuty (value : Int)
  | dispatchBatchIoOutputs (value : Int)
  | noHandler
deriving DecidableEq, Repr

/-- Whether the callback outcome issues a component write operation. -/
def dispatchesComponentWrite : HmiResult → Bool
  | .applyWriteEnable _ => false
  | .rejectedWriteDisabled => false
  | .rejectedAutoModePump => false
  | .noHandler => false
  | _ => true

/-- `hmi_write_trigger(address, value)`, the single write-range callback
registered for both coils and registers.  `write_enable` and
`control_mode` are the processed-map values read at entry;
`is_auto_control` abstracts the `inspect.stack()` test for a caller
inside the auto-control module.  Branches in source order: the
write-enable coil itself; rejection of everything else while write
enable is off; in control modes 2/3/4 rejection of non-auto-control
writes to the pump duty write region and the pump batch duty register;
then the dispatch table.  Addresses matching no branch (among them the
whole fan duty write region 432..463 and the fan batch duty register
560) fall through without any action. -/
def hmi_write_trigger (write_enable control_mode : Int) (is_auto_control : Bool)
    (address value : Int) : HmiResult :=
  if address = COIL_WRITE_ENABLE then .applyWriteEnable value
  else if write_enable ≠ 1 then .rejectedWriteDisabled
  else if (control_mode = 2 ∨ control_mode = 3 ∨ control_mode = 4) ∧
      is_auto_control = false ∧
      (PUMP_DUTY_WRITE_START ≤ address ∧ address < PUMP_DUTY_WRITE_END ∨
       address = PUMP_BATCH_DUTY_REGISTER) then
    .rejectedAutoModePump
  else if COIL_FAN_SWITCH_WRITE_START ≤ address ∧ address < COIL_FAN_SWITCH_WRITE_END then
    .dispatchFanSwitch (address - COIL_FAN_SWITCH_WRITE_START) value
  else if PUMP_DUTY_WRITE_START ≤ address ∧ address < PUMP_DUTY_WRITE_END then
    .dispatchPumpDuty (address - PUMP_DUTY_WRITE_START) value
  else if PV_DUTY_WRITE_START ≤ address ∧ address < PV_DUTY_WRITE_END then
    .dispatchPvDuty (address - PV_DUTY_WRITE_START) value
  else if COIL_IO_OUTPUT_WRITE_START ≤ address ∧ address < COIL_IO_OUTPUT_WRITE_END then
    .dispatchIoOutput (address - COIL_IO_OUTPUT_WRITE_START) value
  else if address = PUMP_BATCH_DUTY_REGISTER then .dispatchBatchPumpDuty value
  else if address = PV_BATCH_DUTY_REGISTER then .dispatchBatchPvDuty value
  else if address = IO_OUTPUT_BATCH_SWITCH_COIL then .dispatchBatchIoOutputs value
  else .noHandler

/-- Per-pump configuration slice used by `process_pump_state`: the
`local` member of each configured raw address (absent keys give `none`)
and `min_duty`. -/
structure PumpCfg where
  dutyAddr : Option Int
  currentAddr : Option Int
  speedAddr : Option Int
  voltageAddr : Option Int
  temperatureAddr : Option Int
  min_duty : Int
deriving DecidableEq, Repr

/-- `dict.get(addr, 0)` over an optional address. -/
def rawAt (regs : Int → Int) : Option Int → Int
  | some a => regs a
  | none => 0

/-- `process_pump_state(pump_cfg, registers, coils, pump_index, now)`:
reads the raw switch coil, duty, current, speed, voltage and
temperature, runs the 8-second fault-confirmation state machine, and
stores the processed values (`duty*100`, sign-adjusted current,
`voltage*100`, `temperature*10`, speed and state) in the processed map.
`fault_start` is the `_fault_time["pump"]` entry for this pump (0 when
absent), `now` the wall-clock time in seconds.  Returns the updated
processed map, the updated fault-time entry, and the computed state. -/
def process_pump_state (cfg : PumpCfg) (registers coils : Int → Int)
    (pump_index : Nat) (now fault_start : ℚ) (m : PMap) : PMap × ℚ × Int :=
  let coil_addr := COIL_PUMP_SWITCH_READ_START + (pump_index : Int)
  let switch_on : Int := if coils coil_addr ≠ 0 then 1 else 0
  let duty_cycle := rawAt registers cfg.dutyAddr
  let current := rawAt registers cfg.currentAddr
  let speed := rawAt registers cfg.speedAddr
  let voltage := rawAt registers cfg.voltageAddr
  let temperature := rawAt registers cfg.temperatureAddr
  let stateAndFt : Int × ℚ :=
    if switch_on = 1 ∧ cfg.min_duty ≤ duty_cycle then
      if 100 ≤ current then (1, 0)
      else if fault_start = 0 then (0, now)
      else if (8 : ℚ) ≤ now - fault_start then (2, fault_start)
      else (0, fault_start)
    else (0, 0)
  let u16_current := to_u16 current
  let m := (set_coil m coil_addr switch_on false true).1
  let m := (set_register m (PUMP_DUTY_READ_START + (pump_index : Int)) (duty_cycle * 100) true).1
  let m := (set_register m (PUMP_CURRENT_START + (pump_index : Int)) u16_current true).1
  let m := (set_register m (PUMP_SPEED_START + (pump_index : Int)) speed true).1
  let m := (set_register m (PUMP_STATUS_START + (pump_index : Int)) stateAndFt.1 true).1
  let m := (set_register m (PUMP_VOLTAGE_START + (pump_index : Int)) (voltage * 100) true).1
  let m := (set_register m (PUMP_TEMPERATURE_START + (pump_index : Int)) (temperature * 10) true).1
  (m, stateAndFt.2, stateAndFt.1)

end DDM

/-! ## Shared helper lemmas -/

namespace DDM

/-- `set_coil` never touches the holding-register store. -/
theorem set_coil_fst_registers (m : PMap) (address value : Int) (force tc : Bool) :
    ((set_coil m address value force tc).1).registers = m.registers := by
  unfold set_coil
  split_ifs <;> rfl

/-- Effect of `set_register` on the register store. -/
theorem set_register_fst_registers (m : PMap) (address value : Int) (tc : Bool)
    (h0 : 0 ≤ address) (h1 : address < 65536) :
    ((set_register m address value tc).1).registers =
      fun a => if a = address then value else m.registers a := by
  unfold set_register
  rw [if_neg (by omega)]
  split_ifs <;> rfl

/-- Pointwise version of `set_register_fst_registers`. -/
theorem set_register_registers_apply (m : PMap) (address value : Int) (tc : Bool)
    (a : Int) (h0 : 0 ≤ address) (h1 : address < 65536) :
    ((set_register m address value tc).1).registers a =
      if a = address then value else m.registers a := by
  rw [set_register_fst_registers m address value tc h0 h1]

end DDM

namespace COT

theorem update_mode_param_mgr (st : MgrState) (t r : Bool) :
    (update_mode st t r).param_mgr = st.param_mgr := by
  unfold update_mode
  split_ifs <;> rfl

theorem update_mode_last (st : MgrState) (t r : Bool) :
    (update_mode st t r).last_write_values = st.last_write_values := by
  unfold update_mode
  split_ifs <;> rfl

theorem update_mode_accept_true (st : MgrState) {t r : Bool} (h : t = true ∨ r = true) :
    (update_mode st t r).accept_new_task = true := by
  unfold update_mode
  cases t <;> cases r <;> simp_all

theorem alookup_aupdate_self {α : Type} [DecidableEq α] {β : Type}
    (l : List (α × β)) (k : α) (v : β) :
    alookup (aupdate l k v) k = some v := by
  induction l with
  | nil => simp [aupdate, alookup]
  | cons hd tl ih =>
    obtain ⟨k1, v1⟩ := hd
    by_cases hk : k1 = k
    · simp [aupdate, alookup, hk]
    · simp [aupdate, alookup, hk, ih]

end COT

/-! ## Claim theorems -/

/-- C6: one `PidHelper.calculate` step computes the error
`e = target - measured` when `is_add` (else `measured - target`),
output `kp*e + ki*(integral + e*dt) + kd*(e - prev_error)/dt + bias`
clamped to `[output_min, output_max]`, updates only `integral` (by
`e*dt`) and `previous_error` (to `e`) — which makes the output a pure
function of the state and these inputs — and `reset` zeroes exactly
`previous_error` and `integral`, leaving the gains, `dt` and the output
bounds unchanged. -/
theorem pid_calculate_step_spec (st : PidHelper.State)
    (target measured bias : ℚ) (is_add : Bool) (hdt : st.dt ≠ 0) :
    PidHelper.calculate st target measured bias is_add =
      (max st.output_min (min st.output_max
         (st.kp * (if is_add then target - measured else measured - target) +
          st.ki * (st.integral +
            (if is_add then target - measured else measured - target) * st.dt) +
          st.kd * (((if is_add then target - measured else measured - target) -
            st.previous_error) / st.dt) +
          bias)),
       { st with
           integral := st.integral +
             (if is_add then target - measured else measured - target) * st.dt,
           previous_error :=
             if is_add then target - measured else measured - target }) ∧
    PidHelper.reset st = { st with previous_error := 0, integral := 0 } :=
  ⟨rfl, rfl⟩

/-- Concrete state for the C6 witness: kp=1, ki=0, kd=0, bounds [0,100], dt=1. -/
def pidWitnessState : PidHelper.State :=
  { kp := 1, ki := 0, kd := 0, previous_error := 0, integral := 0,
    previous_measured_value := 0, output_min := 0, output_max := 100, dt := 1 }

/-- C6 witness: the step theorem instantiated at target 10, measured 4. -/
theorem pid_calculate_step_spec_witness :
    pidWitnessState.dt ≠ 0 ∧
    (PidHelper.calculate pidWitnessState 10 4 0 true).1 = 6 := by
  have h := pid_calculate_step_spec pidWitnessState 10 4 0 true
    (by norm_num [pidWitnessState])
  refine ⟨by norm_num [pidWitnessState], ?_⟩
  have h1 := congrArg Prod.fst h.1
  rw [h1]
  norm_num [pidWitnessState, sup_eq_max, inf_eq_min, max_def, min_def]

/-- Concrete state for the C10 existence part: current ki = kd = 5. -/
def pidGuardState : PidHelper.State :=
  { kp := 0, ki := 5, kd := 5, previous_error := 0, integral := 0,
    previous_measured_value := 0, output_min := 0, output_max := 0, dt := 1 }

/-- C10: after `set_pid_var(kp, ki, kd)` the stored `kp` always equals
the `kp` argument, while `ki` (resp. `kd`) is updated to the requested
value only when the pre-call `ki` (resp. `kd`) differs from the `kp`
argument; in particular, with pre-call `ki = kd = 5` the call
`set_pid_var(5, 7, 9)` leaves `ki` and `kd` at 5, not the requested
7 and 9. -/
theorem set_pid_var_guards_compare_against_kp :
    (∀ (st : PidHelper.State) (kp ki kd : ℚ),
       (PidHelper.set_pid_var st kp ki kd).kp = kp ∧
       (PidHelper.set_pid_var st kp ki kd).ki = (if st.ki ≠ kp then ki else st.ki) ∧
       (PidHelper.set_pid_var st kp ki kd).kd = (if st.kd ≠ kp then kd else st.kd)) ∧
    (PidHelper.set_pid_var pidGuardState 5 7 9).ki = 5 ∧
    (PidHelper.set_pid_var pidGuardState 5 7 9).kd = 5 ∧
    (7 : ℚ) ≠ 5 ∧ (9 : ℚ) ≠ 5 := by
  refine ⟨?_, by norm_num [PidHelper.set_pid_var, pidGuardState],
    by norm_num [PidHelper.set_pid_var, pidGuardState], by norm_num, by norm_num⟩
  intro st kp ki kd
  by_cases h1 : st.kp = kp <;> by_cases h2 : st.ki = kp <;> by_cases h3 : st.kd = kp <;>
    simp [PidHelper.set_pid_var, h1, h2, h3]

/-- C2 (failing run): three consecutive underlying Modbus calls that all
return an `isError()` response make `ModbusBatchWriter.write_registers`
return `None` — indistinguishable from success for its caller — and make
`ModbusBatchReader.read_holding_registers` return `(None, None)`; an
error string is surfaced only when some attempt raised an exception, and
then it is the message of the last exception, not of the last failed
attempt. -/
theorem batch_io_all_protocol_errors_report_no_error :
    BatchIO.write_registers true (fun _ => BatchIO.Attempt.protocolError) 3 = none ∧
    BatchIO.read_holding_registers true (fun _ => BatchIO.ReadAttempt.protocolError) 3
      = (none, none) ∧
    BatchIO.write_registers true
      (fun i => if i = 0 then BatchIO.Attempt.exnRaised "boom"
                else BatchIO.Attempt.protocolError) 3 = some "boom" ∧
    BatchIO.write_registers true (fun _ => BatchIO.Attempt.exnRaised "boom") 3
      = some "boom" := by
  refine ⟨rfl, rfl, rfl, rfl⟩

/-- First enqueued item of the C8 counterexample (sequence number 1). -/
def tqItemA : TaskQueue.TaskItem := { priority := 0, timestamp := 5, seq := 1 }

/-- Second enqueued item of the C8 counterexample (sequence number 2),
created within the same `time.time()` tick, hence an equal timestamp. -/
def tqItemB : TaskQueue.TaskItem := { priority := 0, timestamp := 5, seq := 2 }

/-- C8 counterexample: two equal-priority tasks enqueued in order 1, 2
within one clock tick carry identical `(priority, timestamp)` keys, so
`TaskItem.__lt__` cannot distinguish them and the priority queue is
allowed to dequeue the later-enqueued task first — the claimed
FIFO-by-enqueue-sequence tie-break does not hold for all interleavings. -/
theorem task_queue_equal_timestamp_breaks_fifo :
    TaskQueue.canDequeueFirst [tqItemA, tqItemB] tqItemB ∧
    tqItemA.seq < tqItemB.seq ∧
    TaskQueue.task_lt tqItemA tqItemB = false ∧
    TaskQueue.task_lt tqItemB tqItemA = false := by
  refine ⟨⟨by decide, ?_⟩, by decide, by decide, by decide⟩
  intro y hy
  fin_cases hy <;> decide

/-- C8 (amended): the dequeue order implemented by `TaskItem.__lt__` is
lexicographic on `(priority, creation timestamp)`: any admissible first
dequeue has minimal priority, and among items of equal priority it has a
minimal timestamp — so FIFO among equal priorities holds exactly when
the earlier-enqueued task got a strictly smaller `time.time()` stamp. -/
theorem task_queue_priority_then_timestamp
    (q : List TaskQueue.TaskItem) (x : TaskQueue.TaskItem)
    (hx : TaskQueue.canDequeueFirst q x) :
    (∀ y ∈ q, x.priority ≤ y.priority) ∧
    (∀ y ∈ q, y.priority = x.priority → x.timestamp ≤ y.timestamp) := by
  obtain ⟨-, hmin⟩ := hx
  constructor
  · intro y hy
    have h := hmin y hy
    unfold TaskQueue.task_lt at h
    split_ifs at h with h1 h2
    · omega
    · omega
  · intro y hy hpri
    have h := hmin y hy
    unfold TaskQueue.task_lt at h
    split_ifs at h with h1
    · simp only [decide_eq_false_iff_not, not_lt] at h
      exact h

/-- Concrete queue for the C8 amended-claim witness. -/
def tqItemC : TaskQueue.TaskItem := { priority := 1, timestamp := 2, seq := 1 }

/-- Second item of the C8 witness queue: smaller priority, later stamp. -/
def tqItemD : TaskQueue.TaskItem := { priority := 0, timestamp := 3, seq := 2 }

/-- C8 witness: in the queue `[C, D]` the admissible first dequeue `D`
has minimal priority and minimal timestamp within its priority class. -/
theorem task_queue_priority_then_timestamp_witness :
    (∀ y ∈ [tqItemC, tqItemD], tqItemD.priority ≤ y.priority) ∧
    (∀ y ∈ [tqItemC, tqItemD], y.priority = tqItemD.priority →
      tqItemD.timestamp ≤ y.timestamp) := by
  refine task_queue_priority_then_timestamp [tqItemC, tqItemD] tqItemD ⟨by decide, ?_⟩
  intro y hy
  fin_cases hy <;> decide

/-- C3: `set_coil(a, v, trigger_callback=true)` with `force=false` fires
no registered coil callback when `a` lies outside the declared coil
write ranges, and `set_register(a, v, trigger_callback=true)` fires no
registered register callback when `a` lies outside the declared register
write ranges; conversely callbacks fire only when `trigger_callback` is
true and the address is in a declared write range (or `force=true` for
coils). -/
theorem set_callbacks_gated_by_write_ranges :
    (∀ (m : DDM.PMap) (a v : Int), DDM.in_ranges a DDM.coil_write_ranges = false →
       (DDM.set_coil m a v false true).2 = false) ∧
    (∀ (m : DDM.PMap) (a v : Int), DDM.in_ranges a DDM.register_write_ranges = false →
       (DDM.set_register m a v true).2 = false) ∧
    (∀ (m : DDM.PMap) (a v : Int) (force trigger : Bool),
       (DDM.set_coil m a v force trigger).2 = true →
       trigger = true ∧ (force = true ∨ DDM.in_ranges a DDM.coil_write_ranges = true)) ∧
    (∀ (m : DDM.PMap) (a v : Int) (trigger : Bool),
       (DDM.set_register m a v trigger).2 = true →
       trigger = true ∧ DDM.in_ranges a DDM.register_write_ranges = true) := by
  refine ⟨?_, ?_, ?_, ?_⟩
  · intro m a v h
    unfold DDM.set_coil
    split_ifs with h1 h2 h3 <;> simp_all
  · intro m a v h
    unfold DDM.set_register
    split_ifs with h1 h2 <;> simp_all
  · intro m a v force trigger h
    unfold DDM.set_coil at h
    split_ifs at h with h1 h2 h3 <;>
      · push_neg at h2
        refine ⟨by simpa using h2.1, ?_⟩
        rcases Bool.eq_false_or_eq_true force with hf | hf
        · exact Or.inl hf
        · exact Or.inr (by simpa using h2.2.2 hf)
  · intro m a v trigger h
    unfold DDM.set_register at h
    split_ifs at h with h1 h2
    push_neg at h2
    exact ⟨by simpa using h2.1, by simpa using h2.2.2⟩

/-- All-zero processed map with one registered callback of each kind,
used by the C3 witness. -/
def pmapWitness : DDM.PMap :=
  { coils := fun _ => 0, registers := fun _ => 0,
    numCoilCallbacks := 1, numRegisterCallbacks := 1 }

/-- C3 witness: coil address 300 and register address 500 are outside
the declared write ranges, so neither store fires callbacks there, while
a write to coil 33 (fan switch write region) does fire and the theorem
recovers its gate conditions. -/
theorem set_callbacks_gated_by_write_ranges_witness :
    (DDM.set_coil pmapWitness 300 1 false true).2 = false ∧
    (DDM.set_register pmapWitness 500 7 true).2 = false ∧
    (true = true ∧ (false = true ∨ DDM.in_ranges 33 DDM.coil_write_ranges = true)) := by
  refine ⟨set_callbacks_gated_by_write_ranges.1 pmapWitness 300 1 (by decide),
    set_callbacks_gated_by_write_ranges.2.1 pmapWitness 500 7 (by decide),
    set_callbacks_gated_by_write_ranges.2.2.1 pmapWitness 33 1 false true (by decide)⟩

/-- `T3 - T4` as decoded by `get_cooling_capacity` (processed
temperature registers divided by 10). -/
def coolingDeltaT (m : DDM.PMap) : ℚ :=
  ((DDM.get_register m (DDM.TEMP_VALUE_START + 2) : ℚ)) / 10 -
  ((DDM.get_register m (DDM.TEMP_VALUE_START + 3) : ℚ)) / 10

/-- `F2` as decoded by `get_cooling_capacity`: the processed flow
register sign-decoded from U16 two's-complement, divided by 10. -/
def coolingF2 (m : DDM.PMap) : ℚ :=
  ((if 32768 ≤ DDM.get_register m (DDM.FLOW_VALUE_START + 1) then
      DDM.get_register m (DDM.FLOW_VALUE_START + 1) - 65536
    else DDM.get_register m (DDM.FLOW_VALUE_START + 1) : Int) : ℚ) / 10

/-- The cooling-capacity physical value
`cap = F2 * (T3 - T4) * 1.0163 * 4.182 / 60` (kW). -/
def coolingCap (m : DDM.PMap) : ℚ :=
  coolingF2 m * coolingDeltaT m * (10163 / 10000) * (4182 / 1000) / 60

/-- C5: whenever `|T3 - T4| < 1e-12` the call leaves the whole
processed map (in particular the cooling-capacity register) unchanged
and returns the current register value; otherwise it stores
`round(cap * 10)` encoded as U16 two's-complement at
`COOLING_CAPACITY_START` and returns that encoding. -/
theorem get_cooling_capacity_suppression_and_formula :
    (∀ m : DDM.PMap, |coolingDeltaT m| < 1 / 1000000000000 →
       DDM.get_cooling_capacity m =
         (m, DDM.get_register m (DDM.COOLING_CAPACITY_START + 0))) ∧
    (∀ m : DDM.PMap, ¬ |coolingDeltaT m| < 1 / 1000000000000 →
       (DDM.get_cooling_capacity m).2 = DDM.to_u16 (pyRound (coolingCap m * 10)) ∧
       ((DDM.get_cooling_capacity m).1).registers (DDM.COOLING_CAPACITY_START + 0) =
         DDM.to_u16 (pyRound (coolingCap m * 10))) := by
  constructor
  · intro m h
    have h' : |((DDM.get_register m (DDM.TEMP_VALUE_START + 2) : ℚ)) / 10 -
        ((DDM.get_register m (DDM.TEMP_VALUE_START + 3) : ℚ)) / 10| <
        1 / 1000000000000 := h
    unfold DDM.get_cooling_capacity
    rw [if_pos h']
  · intro m h
    have h' : ¬ |((DDM.get_register m (DDM.TEMP_VALUE_START + 2) : ℚ)) / 10 -
        ((DDM.get_register m (DDM.TEMP_VALUE_START + 3) : ℚ)) / 10| <
        1 / 1000000000000 := h
    unfold DDM.get_cooling_capacity
    rw [if_neg h']
    refine ⟨rfl, ?_⟩
    rw [DDM.set_register_fst_registers _ _ _ _ (by norm_num [DDM.COOLING_CAPACITY_START])
      (by norm_num [DDM.COOLING_CAPACITY_START])]
    simp [coolingCap, coolingF2, coolingDeltaT]

/-- Concrete processed map for the C5 witness: F2 register = 100
(10.0 L/min), T3 = 300 (30.0 °C), T4 = 250 (25.0 °C). -/
def pmapC5 : DDM.PMap :=
  { coils := fun _ => 0,
    registers := fun a =>
      if a = 1101 then 100 else if a = 902 then 300 else if a = 903 then 250 else 0,
    numCoilCallbacks := 1, numRegisterCallbacks := 1 }

/-- C5 witness: with `ΔT = 5`, the suppression guard does not apply and
the register receives the U16 encoding of `round(cap * 10)`. -/
theorem get_cooling_capacity_formula_witness :
    ¬ |coolingDeltaT pmapC5| < 1 / 1000000000000 ∧
    (DDM.get_cooling_capacity pmapC5).2 = DDM.to_u16 (pyRound (coolingCap pmapC5 * 10)) := by
  have hd : coolingDeltaT pmapC5 = 5 := by
    norm_num [coolingDeltaT, DDM.get_register, pmapC5, DDM.TEMP_VALUE_START]
  have h : ¬ |coolingDeltaT pmapC5| < 1 / 1000000000000 := by
    rw [hd, abs_lt]
    rintro ⟨-, h2⟩
    norm_num at h2
  exact ⟨h, (get_cooling_capacity_suppression_and_formula.2 pmapC5 h).1⟩

/-- Pump configuration for the C9 pump-duty part. -/
def pumpCfgC9 : DDM.PumpCfg :=
  { dutyAddr := some 0, currentAddr := some 1, speedAddr := some 2,
    voltageAddr := some 3, temperatureAddr := some 4, min_duty := 0 }

/-- C9: the derivation-side `to_u16` encodes only negative inputs
(`(val + 0x10000) & 0xFFFF`) and passes every non-negative input through
unmasked, so any value ≥ 65536 survives; `process_pump_state` stores the
raw pump duty times 100 in the processed map, which exceeds the U16
range as soon as the raw duty exceeds 655; the writer-side
`component_operation_task.to_u16` instead always masks to
`[0, 65536)`. -/
theorem to_u16_unmasked_overflow_vs_writer_mask :
    (∀ v : Int, 0 ≤ v → DDM.to_u16 v = v) ∧
    (∀ v : Int, v < 0 → DDM.to_u16 v = (v + 65536) % 65536) ∧
    (∀ v : Int, 65536 ≤ v → ¬ DDM.to_u16 v < 65536) ∧
    (∀ (regs coils : Int → Int) (idx : Nat) (now fs : ℚ) (m : DDM.PMap) (d : Int),
       idx < 32 → regs 0 = d →
       ((DDM.process_pump_state pumpCfgC9 regs coils idx now fs m).1).registers
           (DDM.PUMP_DUTY_READ_START + (idx : Int)) = d * 100 ∧
       (656 ≤ d →
         ¬ ((DDM.process_pump_state pumpCfgC9 regs coils idx now fs m).1).registers
             (DDM.PUMP_DUTY_READ_START + (idx : Int)) < 65536)) ∧
    (∀ v : Int, COT.to_u16 v = v % 65536 ∧ 0 ≤ COT.to_u16 v ∧ COT.to_u16 v < 65536) := by
  refine ⟨?_, ?_, ?_, ?_, ?_⟩
  · intro v hv
    unfold DDM.to_u16
    rw [if_neg (by omega)]
  · intro v hv
    unfold DDM.to_u16
    rw [if_pos hv]
  · intro v hv
    unfold DDM.to_u16
    rw [if_neg (by omega)]
    omega
  · intro regs coils idx now fs m d hidx hd
    have key :
        ((DDM.process_pump_state pumpCfgC9 regs coils idx now fs m).1).registers
          (DDM.PUMP_DUTY_READ_START + (idx : Int)) = d * 100 := by
      simp only [DDM.process_pump_state]
      rw [DDM.set_register_registers_apply _ (DDM.PUMP_TEMPERATURE_START + (idx : Int)) _ _ _
        (by simp only [DDM.PUMP_TEMPERATURE_START]; omega)
        (by simp only [DDM.PUMP_TEMPERATURE_START]; omega)]
      rw [if_neg (by simp only [DDM.PUMP_DUTY_READ_START, DDM.PUMP_TEMPERATURE_START]; omega)]
      rw [DDM.set_register_registers_apply _ (DDM.PUMP_VOLTAGE_START + (idx : Int)) _ _ _
        (by simp only [DDM.PUMP_VOLTAGE_START]; omega)
        (by simp only [DDM.PUMP_VOLTAGE_START]; omega)]
      rw [if_neg (by simp only [DDM.PUMP_DUTY_READ_START, DDM.PUMP_VOLTAGE_START]; omega)]
      rw [DDM.set_register_registers_apply _ (DDM.PUMP_STATUS_START + (idx : Int)) _ _ _
        (by simp only [DDM.PUMP_STATUS_START]; omega)
        (by simp only [DDM.PUMP_STATUS_START]; omega)]
      rw [if_neg (by simp only [DDM.PUMP_DUTY_READ_START, DDM.PUMP_STATUS_START]; omega)]
      rw [DDM.set_register_registers_apply _ (DDM.PUMP_SPEED_START + (idx : Int)) _ _ _
        (by simp only [DDM.PUMP_SPEED_START]; omega)
        (by simp only [DDM.PUMP_SPEED_START]; omega)]
      rw [if_neg (by simp only [DDM.PUMP_DUTY_READ_START, DDM.PUMP_SPEED_START]; omega)]
      rw [DDM.set_register_registers_apply _ (DDM.PUMP_CURRENT_START + (idx : Int)) _ _ _
        (by simp only [DDM.PUMP_CURRENT_START]; omega)
        (by simp only [DDM.PUMP_CURRENT_START]; omega)]
      rw [if_neg (by simp only [DDM.PUMP_DUTY_READ_START, DDM.PUMP_CURRENT_START]; omega)]
      rw [DDM.set_register_registers_apply _ (DDM.PUMP_DUTY_READ_START + (idx : Int)) _ _ _
        (by simp only [DDM.PUMP_DUTY_READ_START]; omega)
        (by simp only [DDM.PUMP_DUTY_READ_START]; omega)]
      rw [if_pos rfl]
      simp [DDM.rawAt, pumpCfgC9, hd]
    exact ⟨key, fun hbig => by rw [key]; omega⟩
  · intro v
    unfold COT.to_u16
    refine ⟨rfl, ?_, ?_⟩
    · exact Int.emod_nonneg v (by norm_num)
    · exact Int.emod_lt_of_pos v (by norm_num)

/-- Raw register image for the C9 witness: raw pump duty 700. -/
def pumpRegsC9 : Int → Int := fun a => if a = 0 then 700 else 0

/-- Empty processed map for the C9 witness. -/
def pmapC9 : DDM.PMap :=
  { coils := fun _ => 0, registers := fun _ => 0,
    numCoilCallbacks := 0, numRegisterCallbacks := 0 }

/-- C9 witness: `to_u16 70000 = 70000` (outside U16), raw duty 700 is
stored as 70000 in the processed map, and the writer-side encoder masks
70000 down into `[0, 65536)`. -/
theorem to_u16_unmasked_overflow_witness :
    DDM.to_u16 70000 = 70000 ∧
    ¬ DDM.to_u16 70000 < 65536 ∧
    ((DDM.process_pump_state pumpCfgC9 pumpRegsC9 (fun _ => 0) 0 0 0 pmapC9).1).registers
        (DDM.PUMP_DUTY_READ_START + ((0 : Nat) : Int)) = 70000 ∧
    COT.to_u16 70000 = 70000 % 65536 := by
  have h1 := to_u16_unmasked_overflow_vs_writer_mask.1 70000 (by norm_num)
  have h3 := to_u16_unmasked_overflow_vs_writer_mask.2.2.1 70000 (by norm_num)
  have h4 := (to_u16_unmasked_overflow_vs_writer_mask.2.2.2.1 pumpRegsC9 (fun _ => 0)
    0 0 0 pmapC9 700 (by norm_num) (by norm_num [pumpRegsC9])).1
  have h5 := (to_u16_unmasked_overflow_vs_writer_mask.2.2.2.2 70000).1
  exact ⟨h1, h3, h4.trans (by norm_num), h5⟩

/-- C7: when the memoised previous write-enable value is 1 and the
handler receives 0, it requests an immediate stop of the auto-control
loop, issues a forced duty-0 write for every configured pump, and
schedules exactly one replaceable 15-second fan-shutdown one-shot
(cancelling a pending one first); a subsequent call with enable 1
cancels the pending timer, so firing it afterwards issues no fan-off
writes. -/
theorem apply_write_enable_falling_edge_effects
    (cfg : DDM.WEConfig) (st : DDM.WEState) (h : st.last = some 1) :
    DDM.WEAction.stopAutoControl ∈ (DDM.apply_write_enable_effect cfg st 0).2 ∧
    (∀ i : Nat, i < cfg.numPumps →
       DDM.WEAction.pumpDuty i 0 true ∈ (DDM.apply_write_enable_effect cfg st 0).2) ∧
    ((DDM.apply_write_enable_effect cfg st 0).2).count (DDM.WEAction.scheduleFanTimer 15) = 1 ∧
    ((DDM.apply_write_enable_effect cfg st 0).1).timerPending = true ∧
    (st.timerPending = true →
       DDM.WEAction.cancelFanTimer ∈ (DDM.apply_write_enable_effect cfg st 0).2) ∧
    ((DDM.apply_write_enable_effect cfg
        (DDM.apply_write_enable_effect cfg st 0).1 1).1).timerPending = false ∧
    DDM.WEAction.cancelFanTimer ∈
      (DDM.apply_write_enable_effect cfg (DDM.apply_write_enable_effect cfg st 0).1 1).2 ∧
    (DDM.fire_fan_shutdown_timer cfg
      (DDM.apply_write_enable_effect cfg (DDM.apply_write_enable_effect cfg st 0).1 1).1).2
      = [] := by
  have e1 : DDM.apply_write_enable_effect cfg st 0 =
      ({ last := some 0, timerPending := true },
       [DDM.WEAction.stopAutoControl] ++
       ((List.range cfg.numPumps).map fun i => DDM.WEAction.pumpDuty i 0 true) ++
       (if st.timerPending then [DDM.WEAction.cancelFanTimer] else []) ++
       [DDM.WEAction.scheduleFanTimer 15]) := by
    unfold DDM.apply_write_enable_effect
    rw [if_neg (by simp [h]), if_neg (by norm_num)]
  have e2 : DDM.apply_write_enable_effect cfg { last := some 0, timerPending := true } 1 =
      ({ last := some 1, timerPending := false },
       [DDM.WEAction.cancelFanTimer] ++
       ((List.range cfg.numFans).map fun i => DDM.WEAction.fanSwitch i 1 true) ++
       ((List.range cfg.numPvs).map fun _ => DDM.WEAction.batchPvDuty 10000 true)) := by
    unfold DDM.apply_write_enable_effect
    rw [if_neg (by simp), if_pos rfl]
    simp
  rw [e1]
  refine ⟨by simp, ?_, ?_, rfl, ?_, ?_, ?_, ?_⟩
  · intro i hi
    simp only [List.mem_append, List.mem_map, List.mem_range]
    exact Or.inl (Or.inl (Or.inr ⟨i, hi, rfl⟩))
  · have hpumps : ((List.range cfg.numPumps).map
        fun i => DDM.WEAction.pumpDuty i 0 true).count (DDM.WEAction.scheduleFanTimer 15) = 0 := by
      rw [List.count_eq_zero]
      simp [List.mem_map]
    by_cases htp : st.timerPending <;>
      simp [List.count_append, hpumps, htp, List.count_singleton, List.count_cons, List.count_nil]
  · intro htp
    simp [htp]
  · rw [e2]
  · rw [e2]
    simp
  · rw [e2]
    unfold DDM.fire_fan_shutdown_timer
    simp

/-- Concrete configuration and state for the C7 witness. -/
def weCfgWitness : DDM.WEConfig := { numFans := 2, numPumps := 3, numPvs := 1 }

/-- Pre-falling-edge handler state for the C7 witness. -/
def weStWitness : DDM.WEState := { last := some 1, timerPending := true }

/-- C7 witness: the falling-edge theorem instantiated at a concrete
configuration with a pending timer. -/
theorem apply_write_enable_falling_edge_effects_witness :
    DDM.WEAction.stopAutoControl ∈
      (DDM.apply_write_enable_effect weCfgWitness weStWitness 0).2 ∧
    (DDM.fire_fan_shutdown_timer weCfgWitness
      (DDM.apply_write_enable_effect weCfgWitness
        (DDM.apply_write_enable_effect weCfgWitness weStWitness 0).1 1).1).2 = [] := by
  have h := apply_write_enable_falling_edge_effects weCfgWitness weStWitness rfl
  exact ⟨h.1, h.2.2.2.2.2.2.2⟩

/-- C4 counterexample: with write enable on, control mode 3 and a caller
outside the auto-control module, an HMI write to the first
proportional-valve duty write register (address 808, inside the declared
register write ranges, so the callback does fire) is dispatched to
`write_pv_duty` — a component write operation — instead of being
rejected at entry. -/
theorem hmi_write_trigger_pv_duty_not_rejected_in_auto_mode :
    DDM.hmi_write_trigger 1 3 false 808 5000 = DDM.HmiResult.dispatchPvDuty 0 5000 ∧
    DDM.dispatchesComponentWrite (DDM.hmi_write_trigger 1 3 false 808 5000) = true ∧
    DDM.in_ranges 808 DDM.register_write_ranges = true := by
  refine ⟨by rfl, by rfl, by rfl⟩

/-- C4 (amended): in control modes 2/3/4 with write enable on, the
callback rejects at entry exactly the non-auto-control writes to the
pump duty write region and the pump batch duty register — conversely,
the entry rejection is returned only for those pump addresses, from a
non-auto-control caller, in modes 2/3/4; the fan duty write region and
the fan batch duty register (560) have no dispatch branch at all (no
component write, but no entry rejection either); and the
proportional-valve duty write region and the PV batch duty register
(832) are still dispatched to component write operations. -/
theorem hmi_write_trigger_auto_mode_rejects_only_pump
    (mode addr v : Int) (hmode : mode = 2 ∨ mode = 3 ∨ mode = 4) :
    (DDM.PUMP_DUTY_WRITE_START ≤ addr ∧ addr < DDM.PUMP_DUTY_WRITE_END ∨
       addr = DDM.PUMP_BATCH_DUTY_REGISTER →
       DDM.hmi_write_trigger 1 mode false addr v = DDM.HmiResult.rejectedAutoModePump ∧
       DDM.dispatchesComponentWrite (DDM.hmi_write_trigger 1 mode false addr v) = false) ∧
    (DDM.FAN_DUTY_WRITE_START ≤ addr ∧ addr < DDM.FAN_DUTY_WRITE_END →
       DDM.hmi_write_trigger 1 mode false addr v = DDM.HmiResult.noHandler) ∧
    (DDM.PV_DUTY_WRITE_START ≤ addr ∧ addr < DDM.PV_DUTY_WRITE_END →
       DDM.hmi_write_trigger 1 mode false addr v =
         DDM.HmiResult.dispatchPvDuty (addr - DDM.PV_DUTY_WRITE_START) v ∧
       DDM.dispatchesComponentWrite (DDM.hmi_write_trigger 1 mode false addr v) = true) ∧
    (addr = DDM.FAN_BATCH_DUTY_REGISTER →
       DDM.hmi_write_trigger 1 mode false addr v = DDM.HmiResult.noHandler) ∧
    (addr = DDM.PV_BATCH_DUTY_REGISTER →
       DDM.hmi_write_trigger 1 mode false addr v = DDM.HmiResult.dispatchBatchPvDuty v ∧
       DDM.dispatchesComponentWrite (DDM.hmi_write_trigger 1 mode false addr v) = true) ∧
    (∀ (we m2 : Int) (auto : Bool) (a2 v2 : Int),
       DDM.hmi_write_trigger we m2 auto a2 v2 = DDM.HmiResult.rejectedAutoModePump →
       (DDM.PUMP_DUTY_WRITE_START ≤ a2 ∧ a2 < DDM.PUMP_DUTY_WRITE_END ∨
          a2 = DDM.PUMP_BATCH_DUTY_REGISTER) ∧
       auto = false ∧ (m2 = 2 ∨ m2 = 3 ∨ m2 = 4)) := by
  simp only [DDM.hmi_write_trigger, DDM.COIL_WRITE_ENABLE, DDM.PUMP_DUTY_WRITE_START,
    DDM.PUMP_DUTY_WRITE_END, DDM.PUMP_BATCH_DUTY_REGISTER, DDM.COIL_FAN_SWITCH_WRITE_START,
    DDM.COIL_FAN_SWITCH_WRITE_END, DDM.PV_DUTY_WRITE_START, DDM.PV_DUTY_WRITE_END,
    DDM.COIL_IO_OUTPUT_WRITE_START, DDM.COIL_IO_OUTPUT_WRITE_END, DDM.PV_BATCH_DUTY_REGISTER,
    DDM.IO_OUTPUT_BATCH_SWITCH_COIL, DDM.FAN_DUTY_WRITE_START, DDM.FAN_DUTY_WRITE_END,
    DDM.FAN_BATCH_DUTY_REGISTER]
  refine ⟨?_, ?_, ?_, ?_, ?_, ?_⟩
  · intro h
    rw [if_neg (by omega), if_neg (by omega), if_pos ⟨hmode, by trivial, h⟩]
    constructor <;> trivial
  · intro h
    rw [if_neg (by omega), if_neg (by omega),
      if_neg (by rintro ⟨-, -, h3⟩; omega),
      if_neg (by omega), if_neg (by omega), if_neg (by omega), if_neg (by omega),
      if_neg (by omega), if_neg (by omega), if_neg (by omega)]
  · intro h
    rw [if_neg (by omega), if_neg (by omega),
      if_neg (by rintro ⟨-, -, h3⟩; omega),
      if_neg (by omega), if_neg (by omega), if_pos ⟨h.1, h.2⟩]
    constructor <;> trivial
  · intro h
    subst h
    rw [if_neg (by omega), if_neg (by omega),
      if_neg (by rintro ⟨-, -, h3⟩; omega),
      if_neg (by omega), if_neg (by omega), if_neg (by omega), if_neg (by omega),
      if_neg (by omega), if_neg (by omega), if_neg (by omega)]
  · intro h
    subst h
    rw [if_neg (by omega), if_neg (by omega),
      if_neg (by rintro ⟨-, -, h3⟩; omega),
      if_neg (by omega), if_neg (by omega), if_neg (by omega), if_neg (by omega),
      if_neg (by omega), if_pos rfl]
    constructor <;> trivial
  · intro we m2 auto a2 v2 h
    by_cases h1 : a2 = 0
    · rw [if_pos h1] at h
      simp at h
    · rw [if_neg h1] at h
      by_cases h2 : we ≠ 1
      · rw [if_pos h2] at h
        simp at h
      · rw [if_neg h2] at h
        by_cases h3 : (m2 = 2 ∨ m2 = 3 ∨ m2 = 4) ∧ auto = false ∧
            (632 ≤ a2 ∧ a2 < 664 ∨ a2 = 799)
        · exact ⟨h3.2.2, h3.2.1, h3.1⟩
        · rw [if_neg h3] at h
          split_ifs at h

/-- C4 witness: the amended theorem instantiated at mode 3 — pump duty
register 640 is rejected (and the rejection inverted back to the pump
addresses), fan duty register 440 and the fan batch register 560 have
no handler, PV duty register 810 and the PV batch register 832
dispatch component writes. -/
theorem hmi_write_trigger_auto_mode_rejects_only_pump_witness :
    (DDM.hmi_write_trigger 1 3 false 640 1234 = DDM.HmiResult.rejectedAutoModePump ∧
     DDM.dispatchesComponentWrite (DDM.hmi_write_trigger 1 3 false 640 1234) = false) ∧
    DDM.hmi_write_trigger 1 3 false 440 1234 = DDM.HmiResult.noHandler ∧
    (DDM.hmi_write_trigger 1 3 false 810 1234 =
       DDM.HmiResult.dispatchPvDuty (810 - DDM.PV_DUTY_WRITE_START) 1234 ∧
     DDM.dispatchesComponentWrite (DDM.hmi_write_trigger 1 3 false 810 1234) = true) ∧
    DDM.hmi_write_trigger 1 3 false 560 1234 = DDM.HmiResult.noHandler ∧
    (DDM.hmi_write_trigger 1 3 false 832 1234 = DDM.HmiResult.dispatchBatchPvDuty 1234 ∧
     DDM.dispatchesComponentWrite (DDM.hmi_write_trigger 1 3 false 832 1234) = true) ∧
    ((DDM.PUMP_DUTY_WRITE_START ≤ 640 ∧ (640 : Int) < DDM.PUMP_DUTY_WRITE_END ∨
        (640 : Int) = DDM.PUMP_BATCH_DUTY_REGISTER) ∧
     false = false ∧ ((3 : Int) = 2 ∨ (3 : Int) = 3 ∨ (3 : Int) = 4)) := by
  refine ⟨(hmi_write_trigger_auto_mode_rejects_only_pump 3 640 1234 (by norm_num)).1
      (by norm_num [DDM.PUMP_DUTY_WRITE_START, DDM.PUMP_DUTY_WRITE_END]),
    (hmi_write_trigger_auto_mode_rejects_only_pump 3 440 1234 (by norm_num)).2.1
      (by norm_num [DDM.FAN_DUTY_WRITE_START, DDM.FAN_DUTY_WRITE_END]),
    (hmi_write_trigger_auto_mode_rejects_only_pump 3 810 1234 (by norm_num)).2.2.1
      (by norm_num [DDM.PV_DUTY_WRITE_START, DDM.PV_DUTY_WRITE_END]),
    (hmi_write_trigger_auto_mode_rejects_only_pump 3 560 1234 (by norm_num)).2.2.2.1
      (by norm_num [DDM.FAN_BATCH_DUTY_REGISTER]),
    (hmi_write_trigger_auto_mode_rejects_only_pump 3 832 1234 (by norm_num)).2.2.2.2.1
      (by norm_num [DDM.PV_BATCH_DUTY_REGISTER]),
    (hmi_write_trigger_auto_mode_rejects_only_pump 3 0 0 (by norm_num)).2.2.2.2.2
      1 3 false 640 7 (by rfl)⟩

namespace COT

/-- `operate_component` returns `SkipUnchanged` (and enqueues nothing)
whenever some transport is connected, the component resolves, and the
de-dup table already holds the resolved value under `(kind, address)`. -/
theorem operate_component_skip_of_recorded
    (st : MgrState) (t r : Bool) (name : String) (vd : List (String × Int))
    (slave priority : Int) (params : List CompParam) (param : CompParam)
    (kind : WriteKind) (address wv : Int)
    (hconn : t = true ∨ r = true)
    (hp : st.param_mgr = some params)
    (hfind : params.find? (fun p => p.name == name) = some param)
    (hen : param.enabled = true)
    (hres : resolve_write param vd = some (kind, address, wv))
    (hlast : alookup st.last_write_values (kind, address) = some wv) :
    operate_component st t r name vd slave priority =
      (OperateResult.skipUnchanged, update_mode st t r) := by
  have hacc := update_mode_accept_true st hconn
  simp [operate_component, update_mode_param_mgr, update_mode_last,
    hp, hfind, hen, hres, hacc, hlast]

/-- `operate_component` submits a write job and records the value under
`(kind, address)` whenever the de-dup table does not hold it. -/
theorem operate_component_submit_records
    (st : MgrState) (t r : Bool) (name : String) (vd : List (String × Int))
    (slave priority : Int) (params : List CompParam) (param : CompParam)
    (kind : WriteKind) (address wv : Int)
    (hconn : t = true ∨ r = true)
    (hp : st.param_mgr = some params)
    (hfind : params.find? (fun p => p.name == name) = some param)
    (hen : param.enabled = true)
    (hres : resolve_write param vd = some (kind, address, wv))
    (hlast : alookup st.last_write_values (kind, address) ≠ some wv) :
    operate_component st t r name vd slave priority =
      (OperateResult.submitted kind address wv slave priority,
       { update_mode st t r with
           last_write_values := aupdate st.last_write_values (kind, address) wv }) := by
  have hacc := update_mode_accept_true st hconn
  simp [operate_component, update_mode_param_mgr, update_mode_last,
    hp, hfind, hen, hres, hacc, hlast]

end COT

/-- C1 (amended): the de-duplication key of `operate_component` is
`(write_kind, address)` only.  (i) A call that resolves to a
`(kind, address, value)` already recorded in `last_write_values` returns
`SkipUnchanged` without enqueueing, whatever the slave, the priority and
the current TCP/RTU connectivity; (ii) a call whose resolved value is
not recorded submits exactly one write job and records the value;
(iii) hence after a submitting call, a consecutive call resolving to the
same `(kind, address, value)` is skipped even with a different slave and
after a TCP/RTU mode switch — only a changed key (kind or address), per
(ii), makes a write go out again. -/
theorem operate_component_dedup_key_is_kind_address_only :
    (∀ (st : COT.MgrState) (t r : Bool) (name : String) (vd : List (String × Int))
       (slave priority : Int) (params : List COT.CompParam) (param : COT.CompParam)
       (kind : COT.WriteKind) (address wv : Int),
       t = true ∨ r = true →
       st.param_mgr = some params →
       params.find? (fun p => p.name == name) = some param →
       param.enabled = true →
       COT.resolve_write param vd = some (kind, address, wv) →
       COT.alookup st.last_write_values (kind, address) = some wv →
       COT.operate_component st t r name vd slave priority =
         (COT.OperateResult.skipUnchanged, COT.update_mode st t r)) ∧
    (∀ (st : COT.MgrState) (t r : Bool) (name : String) (vd : List (String × Int))
       (slave priority : Int) (params : List COT.CompParam) (param : COT.CompParam)
       (kind : COT.WriteKind) (address wv : Int),
       t = true ∨ r = true →
       st.param_mgr = some params →
       params.find? (fun p => p.name == name) = some param →
       param.enabled = true →
       COT.resolve_write param vd = some (kind, address, wv) →
       COT.alookup st.last_write_values (kind, address) ≠ some wv →
       COT.operate_component st t r name vd slave priority =
         (COT.OperateResult.submitted kind address wv slave priority,
          { COT.update_mode st t r with
              last_write_values := COT.aupdate st.last_write_values (kind, address) wv })) ∧
    (∀ (st : COT.MgrState) (t r t2 r2 : Bool) (name name2 : String)
       (vd vd2 : List (String × Int)) (slave priority slave2 priority2 : Int)
       (params : List COT.CompParam) (param param2 : COT.CompParam)
       (kind : COT.WriteKind) (address wv : Int),
       t = true ∨ r = true →
       t2 = true ∨ r2 = true →
       st.param_mgr = some params →
       params.find? (fun p => p.name == name) = some param →
       param.enabled = true →
       COT.resolve_write param vd = some (kind, address, wv) →
       COT.alookup st.last_write_values (kind, address) ≠ some wv →
       params.find? (fun p => p.name == name2) = some param2 →
       param2.enabled = true →
       COT.resolve_write param2 vd2 = some (kind, address, wv) →
       (COT.operate_component
          ((COT.operate_component st t r name vd slave priority).2)
          t2 r2 name2 vd2 slave2 priority2).1 = COT.OperateResult.skipUnchanged) := by
  refine ⟨COT.operate_component_skip_of_recorded, COT.operate_component_submit_records, ?_⟩
  intro st t r t2 r2 name name2 vd vd2 slave priority slave2 priority2 params param param2
    kind address wv hconn hconn2 hp hfind hen hres hlast hfind2 hen2 hres2
  rw [COT.operate_component_submit_records st t r name vd slave priority params param
    kind address wv hconn hp hfind hen hres hlast]
  rw [COT.operate_component_skip_of_recorded _ t2 r2 name2 vd2 slave2 priority2 params param2
    kind address wv hconn2
    (by simpa [COT.update_mode_param_mgr] using hp)
    hfind2 hen2 hres2
    (by simp [COT.alookup_aupdate_self])]

/-- Pump component used by the C1 concrete runs: one writable register
field at PCBA address 21, no clamping range. -/
def c1Param : COT.CompParam :=
  { name := "pump_1", enabled := true,
    writable_fields := [("rw_d_duty_register_address",
      { kind := COT.WriteKind.register, address := 21, decimals := 0,
        minV := none, maxV := none })],
    rw_d_duty_decimals := 0 }

/-- Initial manager state for the C1 concrete runs: TCP mode, empty
de-duplication table. -/
def c1St : COT.MgrState :=
  { current_mode := COT.Mode.tcp, accept_new_task := true,
    param_mgr := some [c1Param], last_write_values := [] }

/-- C1 counterexample: after a first call submits `(register, 21, 500)`
over TCP with slave 1, a second call with the same resolved value but
slave 2 and with connectivity switched from TCP to RTU still returns
`SkipUnchanged` — changing the slave or the mode does not break the
de-duplication, contradicting the claimed `(kind, address, slave, mode)`
key and the mode-switch refresh guarantee. -/
theorem operate_component_dedup_ignores_slave_and_mode :
    (COT.operate_component c1St true false "pump_1"
       [("rw_d_duty_register_address", 500)] 1 0).1
      = COT.OperateResult.submitted COT.WriteKind.register 21 500 1 0 ∧
    (COT.operate_component
       ((COT.operate_component c1St true false "pump_1"
          [("rw_d_duty_register_address", 500)] 1 0).2)
       false true "pump_1" [("rw_d_duty_register_address", 500)] 2 0).1
      = COT.OperateResult.skipUnchanged := by
  exact ⟨rfl, rfl⟩

/-- C1 witness: the amended theorem instantiated on the same concrete
component, with a slave change (1 to 2) and a TCP-to-RTU switch between
the two calls. -/
theorem operate_component_dedup_key_witness :
    (COT.operate_component
       ((COT.operate_component c1St true true "pump_1"
          [("rw_d_duty_register_address", 500)] 1 0).2)
       false true "pump_1" [("rw_d_duty_register_address", 500)] 2 5).1
      = COT.OperateResult.skipUnchanged := by
  exact operate_component_dedup_key_is_kind_address_only.2.2 c1St true true false true
    "pump_1" "pump_1" [("rw_d_duty_register_address", 500)]
    [("rw_d_duty_register_address", 500)] 1 0 2 5 [c1Param] c1Param c1Param
    COT.WriteKind.register 21 500 (Or.inl rfl) (Or.inr rfl) rfl (by rfl) (by rfl)
    (by rfl) (by decide) (by rfl) (by rfl) (by rfl)
